import Mathlib

/-!
Shallow embedding of the daily wellness check-in agent
(`backend/src/agent.py`): the check-in state model, the JSON history
store, and the three tool operations, together with theorems settling
the specification claims about them.

Modelling conventions:
* JSON values are the inductive `Json` below; JSON numbers are kept as
  integers (no claim inspects numeric precision).
* The durable storage location (the single well-known log file) is the
  `FileContent` type: absent, unreadable, present-but-unparseable, or
  present with a parsed JSON value.  Reading a file that raises is the
  explicit `Except` channel of `readAndParse`.
* `datetime.now().isoformat()` is an oracle: functions that read the
  clock take the current timestamp string as an explicit `now` argument.
* Python f-string conversion (`str()`) of a JSON value is `pyStr`;
  `str.join` is `pyJoin` (raising `TypeError` on a non-iterable or a
  non-string element is returning `none`).  The repr of a string inside
  a container uses a single-quote character built with `Char.ofNat 39`;
  escaping of quotes inside such strings is not modelled (no claim
  exercises it).
-/

namespace Wellness

/-- JSON values as produced by `json.load` / consumed by `json.dump`. -/
inductive Json where
  | null : Json
  | bool : Bool → Json
  | num : Int → Json
  | str : String → Json
  | arr : List Json → Json
  | obj : List (String × Json) → Json
deriving Repr

/-- the dataclass `CheckInState` of `agent.py` (lines 43-58). -/
structure CheckInState where
  mood : Option String := none
  energy : Option String := none
  objectives : List String := []
  advice_given : Option String := none
deriving Repr

/-- the method `CheckInState.is_complete` (lines 50-55):
`all([mood is not None, energy is not None, len(objectives) > 0])`. -/
def CheckInState.is_complete (s : CheckInState) : Bool :=
  s.mood.isSome && s.energy.isSome && decide (s.objectives.length > 0)

/-- conversion of an optional Python string to the JSON value `json.dump`
writes for it: `None` becomes JSON null, a string stays a string. -/
def jsonOfOpt : Option String → Json
  | none => Json.null
  | some s => Json.str s

/-- exceptions the storage layer can raise. -/
inductive PyExc where
  | ioError
  | jsonDecodeError
deriving Repr

/-- the possible states of the wellness log file. -/
inductive FileContent where
  | absent
  | unreadable
  | invalid (raw : String)
  | json (v : Json)
deriving Repr

/-- `os.path.exists(path)` for the log file. -/
def fileExists : FileContent → Bool
  | FileContent.absent => false
  | _ => true

/-- the body of the `try` block of `load_history` (lines 83-84):
`open(path)` followed by `json.load(f)`, either of which can raise. -/
def readAndParse : FileContent → Except PyExc Json
  | FileContent.absent => Except.error PyExc.ioError
  | FileContent.unreadable => Except.error PyExc.ioError
  | FileContent.invalid _ => Except.error PyExc.jsonDecodeError
  | FileContent.json v => Except.ok v

/-- the function `load_history` (lines 78-87): empty list when the file
does not exist; otherwise try to read and parse, return the parsed value
when it is a list and the empty list when it is not; the bare `except`
turns any raised exception into the empty list. -/
def load_history (c : FileContent) : List Json :=
  if fileExists c then
    match readAndParse c with
    | Except.ok (Json.arr xs) => xs
    | Except.ok _ => []
    | Except.error _ => []
  else []

/-- the same control flow as `load_history`, with the exception channel
kept explicit: an uncaught exception would surface as `Except.error`. -/
def load_history_exc (c : FileContent) : Except PyExc (List Json) :=
  if fileExists c then
    match readAndParse c with
    | Except.ok (Json.arr xs) => Except.ok xs
    | Except.ok _ => Except.ok []
    | Except.error _ => Except.ok []
  else Except.ok []

/-- the `record` dict built by `save_checkin_entry` (lines 93-99); `now`
is the value of `datetime.now().isoformat()` at write time. -/
def mkRecord (entry : CheckInState) (now : String) : Json :=
  Json.obj [("timestamp", Json.str now),
            ("mood", jsonOfOpt entry.mood),
            ("energy", jsonOfOpt entry.energy),
            ("objectives", Json.arr (entry.objectives.map Json.str)),
            ("summary", jsonOfOpt entry.advice_given)]

/-- the function `save_checkin_entry` (lines 89-107): load the full
history, append the new record, write the whole list back as the file
content. -/
def save_checkin_entry (entry : CheckInState) (now : String) (c : FileContent) : FileContent :=
  FileContent.json (Json.arr (load_history c ++ [mkRecord entry now]))

/-- a single-quote character (Python repr quoting), written without an
apostrophe literal. -/
def squote : String := String.singleton (Char.ofNat 39)

/-- Python `repr` of a JSON-shaped value (quote escaping inside strings
is not modelled). -/
def pyRepr : Json → String
  | Json.null => "None"
  | Json.bool true => "True"
  | Json.bool false => "False"
  | Json.num n => toString n
  | Json.str s => squote ++ s ++ squote
  | Json.arr xs => "[" ++ String.intercalate ", " (xs.attach.map (fun x => pyRepr x.1)) ++ "]"
  | Json.obj kvs =>
      "\x7b" ++
        String.intercalate ", "
          (kvs.attach.map (fun kv => squote ++ kv.1.1 ++ squote ++ ": " ++ pyRepr kv.1.2)) ++
      "\x7d"
decreasing_by
  · have h1 := List.sizeOf_lt_of_mem x.2
    simp only [Json.arr.sizeOf_spec]
    omega
  · have h1 := List.sizeOf_lt_of_mem kv.2
    have h3 : sizeOf kv.1 = 1 + sizeOf kv.1.1 + sizeOf kv.1.2 := rfl
    simp only [Json.obj.sizeOf_spec]
    omega

/-- Python `str()` as used by f-string interpolation: identity on
strings, `repr` otherwise. -/
def pyStr : Json → String
  | Json.str s => s
  | j => pyRepr j

/-- whether a JSON value is a string. -/
def isStrB : Json → Bool
  | Json.str _ => true
  | _ => false

/-- the string carried by a JSON string value. -/
def asStr : Json → Option String
  | Json.str s => some s
  | _ => none

/-- Python `sep.join(x)`: joins a list of strings, the characters of a
string, or the keys of a dict; raises `TypeError` (returns `none`) on a
non-iterable or on a list with a non-string element. -/
def pyJoin (sep : String) : Json → Option String
  | Json.arr items =>
      if items.all isStrB then
        some (String.intercalate sep (items.filterMap asStr))
      else none
  | Json.str s => some (String.intercalate sep (s.toList.map (fun ch => String.singleton ch)))
  | Json.obj kvs => some (String.intercalate sep (kvs.map Prod.fst))
  | _ => none

/-- Python dict subscript `j[k]` on a parsed JSON value: `none` models a
raised `KeyError`/`TypeError`. -/
def jlookup (j : Json) (k : String) : Option Json :=
  match j with
  | Json.obj kvs => (kvs.find? (fun kv => kv.1 == k)).map Prod.snd
  | _ => none

/-- the history-summary computation of `entrypoint` (lines 196-206):
the fixed text on an empty history, otherwise the f-string built from
the last record; `none` models an exception raised by the dict lookups
or the join. -/
def summarize_latest (history : List Json) : Option String :=
  match history.getLast? with
  | none => some "No previous sessions yet."
  | some last =>
    match jlookup last "timestamp", jlookup last "mood",
          jlookup last "energy", jlookup last "objectives" with
    | some ts, some md, some en, some objs =>
        (pyJoin ", " objs).map (fun joined =>
          "Last check-in on " ++ pyStr ts ++ ". Mood was " ++ pyStr md ++
          ", energy " ++ pyStr en ++ ". Goals: " ++ joined ++ ".")
    | _, _, _, _ => none

/-- the mutable state a tool invocation can touch: the session's
check-in (`ctx.userdata.current_checkin`) and the log file. -/
structure World where
  checkin : CheckInState
  fs : FileContent
deriving Repr

/-- the tool `record_mood_and_energy` (lines 113-122): overwrites the
two fields and returns the acknowledgement f-string. -/
def record_mood_and_energy (w : World) (mood energy : String) : World × String :=
  ({ w with checkin := { w.checkin with mood := some mood, energy := some energy } },
   "Got it — you" ++ squote ++ "re feeling " ++ mood ++ " with " ++ energy ++ " energy.")

/-- the tool `record_objectives` (lines 125-132): overwrites the
objectives list and returns the acknowledgement. -/
def record_objectives (w : World) (objectives : List String) : World × String :=
  ({ w with checkin := { w.checkin with objectives := objectives } },
   "I" ++ squote ++ "ve noted down your goals for today.")

/-- the corrective message of `complete_checkin` (line 144). -/
def incompleteMsg : String :=
  "I still need your mood, energy, and at least one goal before finishing."

/-- f-string rendering of an optional string field (`None` prints as
the text None). -/
def pyStrOpt : Option String → String
  | none => "None"
  | some s => s

/-- the recap f-string of `complete_checkin` (lines 148-156). -/
def recap (state : CheckInState) (final_advice_summary : String) : String :=
  "\nHere’s your daily recap:\n• Mood: " ++ pyStrOpt state.mood ++
  "\n• Energy: " ++ pyStrOpt state.energy ++
  "\n• Goals: " ++ String.intercalate ", " state.objectives ++
  "\n\nReminder: " ++ final_advice_summary ++
  "\nYour check-in has been saved. Have a great day, Sanjay! 🌿\n"

/-- the tool `complete_checkin` (lines 135-157): set `advice_given`,
then either return the corrective message (leaving the file alone) or
persist and return the recap.  `now` is the write-time clock value. -/
def complete_checkin (w : World) (final_advice_summary : String) (now : String) :
    World × String :=
  let state := { w.checkin with advice_given := some final_advice_summary }
  if !state.is_complete then
    ({ w with checkin := state }, incompleteMsg)
  else
    ({ checkin := state, fs := save_checkin_entry state now w.fs },
     recap state final_advice_summary)

-- ======================================================
-- helper lemmas (shared)
-- ======================================================

/-- appending a record and re-reading yields the old history plus the
new record. -/
theorem load_history_save (entry : CheckInState) (now : String) (c : FileContent) :
    load_history (save_checkin_entry entry now c) = load_history c ++ [mkRecord entry now] :=
  rfl

/-- `getLast?` of a list extended by one element. -/
theorem getLast?_append_singleton {α : Type} (l : List α) (a : α) :
    (l ++ [a]).getLast? = some a := by
  induction l with
  | nil => rfl
  | cons x t ih =>
      cases t with
      | nil => rfl
      | cons y u => simpa using ih

/-- every element of `objs.map Json.str` is a JSON string. -/
theorem all_isStrB_map (objs : List String) : (objs.map Json.str).all isStrB = true := by
  induction objs with
  | nil => rfl
  | cons a t ih => simp [isStrB, ih]

/-- extracting the strings back out of `objs.map Json.str`. -/
theorem filterMap_asStr_map (objs : List String) :
    (objs.map Json.str).filterMap asStr = objs := by
  rw [List.filterMap_map]
  have h : (asStr ∘ Json.str) = some := funext (fun s => rfl)
  rw [h, List.filterMap_some objs]

/-- composed form of the previous lemma. -/
theorem filterMap_comp_asStr (objs : List String) :
    List.filterMap (asStr ∘ Json.str) objs = objs := by
  have h : (asStr ∘ Json.str) = some := funext (fun s => rfl)
  rw [h, List.filterMap_some objs]

/-- joining a JSON array of strings is `String.intercalate`. -/
theorem pyJoin_strs (sep : String) (objs : List String) :
    pyJoin sep (Json.arr (objs.map Json.str)) = some (String.intercalate sep objs) := by
  simp [pyJoin, all_isStrB_map, filterMap_asStr_map, filterMap_comp_asStr]

-- ======================================================
-- claim theorems
-- ======================================================

/-- C1: `is_complete` returns true iff `mood` is set, `energy` is set,
and `objectives` has at least one element; the value of `advice_given`
has no effect on the result. -/
theorem is_complete_characterization (s : CheckInState) (a : Option String) :
    (CheckInState.is_complete s = true ↔
      s.mood ≠ none ∧ s.energy ≠ none ∧ 0 < s.objectives.length)
    ∧ CheckInState.is_complete { s with advice_given := a }
        = CheckInState.is_complete s := by
  refine ⟨?_, rfl⟩
  simp [CheckInState.is_complete, Option.isSome_iff_ne_none, and_assoc]

/-- C2: when `is_complete` is false at call time, `complete_checkin`
returns the corrective message (`incompleteMsg`, which names mood,
energy and at least one goal as still required), leaves the log file -
hence the persisted history, count and contents - unchanged, and leaves
`advice_given` set to the summary text rather than clearing it. -/
theorem complete_checkin_incomplete (w : World) (summary now : String)
    (h : CheckInState.is_complete w.checkin = false) :
    complete_checkin w summary now =
      ({ checkin := { w.checkin with advice_given := some summary }, fs := w.fs },
       incompleteMsg)
    ∧ load_history (complete_checkin w summary now).1.fs = load_history w.fs := by
  have h2 : CheckInState.is_complete
      { w.checkin with advice_given := some summary } = false := h
  constructor
  · simp [complete_checkin, h2]
  · simp [complete_checkin, h2]

/-- Witness for C2 at a concrete incomplete state. -/
theorem complete_checkin_incomplete_witness :
    complete_checkin ⟨⟨none, none, [], none⟩, FileContent.absent⟩ "s" "t" =
      ({ checkin := { (⟨none, none, [], none⟩ : CheckInState) with
            advice_given := some "s" },
         fs := FileContent.absent }, incompleteMsg)
    ∧ load_history (complete_checkin ⟨⟨none, none, [], none⟩,
        FileContent.absent⟩ "s" "t").1.fs = load_history FileContent.absent :=
  complete_checkin_incomplete ⟨⟨none, none, [], none⟩, FileContent.absent⟩ "s" "t" rfl

/-- C3: appending a check-in to any prior history adds exactly one
record at the end; the record's mood, energy and objectives equal the
state's fields, its summary equals `advice_given`, and its timestamp is
the write-time clock value `now` (a `CheckInState` carries no timestamp
that could be copied). -/
theorem save_checkin_entry_spec (entry : CheckInState) (now : String) (c : FileContent) :
    load_history (save_checkin_entry entry now c) =
      load_history c ++
        [Json.obj [("timestamp", Json.str now),
                   ("mood", jsonOfOpt entry.mood),
                   ("energy", jsonOfOpt entry.energy),
                   ("objectives", Json.arr (entry.objectives.map Json.str)),
                   ("summary", jsonOfOpt entry.advice_given)]]
    ∧ (load_history (save_checkin_entry entry now c)).length
        = (load_history c).length + 1 := by
  refine ⟨load_history_save entry now c, ?_⟩
  rw [load_history_save entry now c, List.length_append]
  rfl

/-- C4: whenever `is_complete` holds, each `complete_checkin` call
appends a record; a second call after a first (same summary, same clock
value) appends a second, identical record - there is no
already-persisted guard. -/
theorem complete_checkin_no_duplicate_guard (w : World) (s now : String)
    (h : CheckInState.is_complete w.checkin = true) :
    load_history (complete_checkin w s now).1.fs
      = load_history w.fs ++ [mkRecord { w.checkin with advice_given := some s } now]
    ∧ load_history (complete_checkin (complete_checkin w s now).1 s now).1.fs
      = load_history w.fs ++
          [mkRecord { w.checkin with advice_given := some s } now,
           mkRecord { w.checkin with advice_given := some s } now] := by
  have h2 : CheckInState.is_complete
      { w.checkin with advice_given := some s } = true := h
  constructor
  · simp [complete_checkin, h2, load_history_save]
  · simp [complete_checkin, h2, load_history_save]

/-- Witness for C4 at a concrete complete state over an empty store. -/
theorem complete_checkin_no_duplicate_guard_witness :
    load_history (complete_checkin
        ⟨⟨some "happy", some "high", ["read"], none⟩, FileContent.absent⟩ "ok" "t").1.fs
      = load_history FileContent.absent ++
          [mkRecord { (⟨some "happy", some "high", ["read"], none⟩ : CheckInState) with
              advice_given := some "ok" } "t"]
    ∧ load_history (complete_checkin (complete_checkin
        ⟨⟨some "happy", some "high", ["read"], none⟩, FileContent.absent⟩ "ok" "t").1
          "ok" "t").1.fs
      = load_history FileContent.absent ++
          [mkRecord { (⟨some "happy", some "high", ["read"], none⟩ : CheckInState) with
              advice_given := some "ok" } "t",
           mkRecord { (⟨some "happy", some "high", ["read"], none⟩ : CheckInState) with
              advice_given := some "ok" } "t"] :=
  complete_checkin_no_duplicate_guard
    ⟨⟨some "happy", some "high", ["read"], none⟩, FileContent.absent⟩ "ok" "t" rfl

/-- C5 counterexample: stored content `[1]` is a JSON list whose element
is not record-shaped, yet `load_history` returns it as-is rather than
the empty sequence the claim requires. -/
theorem load_history_nonrecord_counterexample :
    load_history (FileContent.json (Json.arr [Json.num 1])) = [Json.num 1]
    ∧ load_history (FileContent.json (Json.arr [Json.num 1])) ≠ [] := by
  refine ⟨rfl, ?_⟩
  simp [load_history, readAndParse, fileExists]

/-- C5 amended: `load_history` returns the empty sequence when the file
is absent, unreadable, or unparseable, or when the parsed JSON value is
not a list; when the parsed value is a JSON list it is returned
unchanged, regardless of whether its elements are record-shaped. -/
theorem load_history_parse_behaviour (raw : String) (v : Json) :
    load_history FileContent.absent = []
    ∧ load_history FileContent.unreadable = []
    ∧ load_history (FileContent.invalid raw) = []
    ∧ load_history (FileContent.json v)
        = (match v with | Json.arr ys => ys | _ => []) := by
  refine ⟨rfl, rfl, rfl, ?_⟩
  cases v <;> rfl

/-- C6: when the storage location does not exist, `load_history`
returns the empty sequence (and raises nothing - it is a total
function). -/
theorem load_history_missing_file : load_history FileContent.absent = [] := rfl

/-- C7: an empty history summarizes to the fixed no-previous-sessions
text; a history ending in a record summarizes to text containing the
record's timestamp, mood, energy, and all objectives joined by the
comma-space separator (the result is the explicit concatenation of
these parts). -/
theorem summarize_latest_spec (hs : List Json) (ts md en : String)
    (objs : List String) (sm : Json) :
    summarize_latest [] = some "No previous sessions yet."
    ∧ summarize_latest (hs ++
        [Json.obj [("timestamp", Json.str ts), ("mood", Json.str md),
                   ("energy", Json.str en),
                   ("objectives", Json.arr (objs.map Json.str)),
                   ("summary", sm)]])
      = some ("Last check-in on " ++ ts ++ ". Mood was " ++ md ++
              ", energy " ++ en ++ ". Goals: " ++
              String.intercalate ", " objs ++ ".") := by
  refine ⟨rfl, ?_⟩
  unfold summarize_latest
  rw [getLast?_append_singleton]
  show (pyJoin ", " (Json.arr (objs.map Json.str))).map (fun joined =>
        "Last check-in on " ++ pyStr (Json.str ts) ++ ". Mood was " ++
        pyStr (Json.str md) ++ ", energy " ++ pyStr (Json.str en) ++
        ". Goals: " ++ joined ++ ".") = _
  rw [pyJoin_strs]
  rfl

/-- C8: `record_objectives` fully replaces the objectives sequence:
setting `a` then `b` leaves exactly `b`, and the resulting check-in
state is the same as after setting `b` alone. -/
theorem record_objectives_overwrites (w : World) (a b : List String) :
    (record_objectives (record_objectives w a).1 b).1.checkin.objectives = b
    ∧ (record_objectives w b).1.checkin.objectives = b
    ∧ (record_objectives (record_objectives w a).1 b).1.checkin
        = (record_objectives w b).1.checkin :=
  ⟨rfl, rfl, rfl⟩

/-- C9: `load_history` is total and always yields a list: on every
file-system state the exception-explicit rendering of its body returns
`ok` with exactly the list `load_history` computes, so no exception
propagates to the caller. -/
theorem load_history_total (c : FileContent) :
    load_history_exc c = Except.ok (load_history c) := by
  cases c with
  | absent => rfl
  | unreadable => rfl
  | invalid raw => rfl
  | json v => cases v <;> rfl

/-- C10: the two mutation tools frame their effects: recording mood and
energy leaves `objectives`, `advice_given` and the log file unchanged,
and recording objectives leaves `mood`, `energy`, `advice_given` and
the log file unchanged. -/
theorem mutation_tools_frame (w : World) (mood energy : String)
    (objectives : List String) :
    ((record_mood_and_energy w mood energy).1.checkin.objectives
        = w.checkin.objectives
      ∧ (record_mood_and_energy w mood energy).1.checkin.advice_given
        = w.checkin.advice_given
      ∧ (record_mood_and_energy w mood energy).1.fs = w.fs)
    ∧ ((record_objectives w objectives).1.checkin.mood = w.checkin.mood
      ∧ (record_objectives w objectives).1.checkin.energy = w.checkin.energy
      ∧ (record_objectives w objectives).1.checkin.advice_given
        = w.checkin.advice_given
      ∧ (record_objectives w objectives).1.fs = w.fs) :=
  ⟨⟨rfl, rfl, rfl⟩, rfl, rfl, rfl, rfl⟩

end Wellness
